/-
Verification of the Bithumb volume-alert bot core against its specification.

Shallow embedding of `src/bithumb_api.py` and `src/main.py`:
* Python floats are modelled as rationals (ℚ); exchange timestamps as integers.
* Stateful methods become explicit state-passing functions; network and clock
  effects become oracle parameters.
* Fallible operations return `Option`/`Except`.
-/
import Mathlib

namespace BithumbBot

/-- A normalized candle, from `BithumbAPI._parse_candles`' output shape
(`src/bithumb_api.py:126-142`): time plus OHLCV floats. -/
structure Candle where
  time : Int
  open_ : ℚ
  close : ℚ
  high : ℚ
  low : ℚ
  volume : ℚ
  deriving DecidableEq, Repr, Inhabited

/-- The result dictionary of `VolumeAnalyzer.check_volume_spike`
(`src/bithumb_api.py:196-202`). `candles_needed` is an `Int` because
`sma_period - len(candles)` can be negative. -/
structure SpikeResult where
  is_spike : Bool
  current_volume : ℚ
  sma_volume : ℚ
  multiplier : ℚ
  candles_needed : Int
  deriving DecidableEq, Repr

/-- `VolumeAnalyzer.calculate_volume_sma` (`src/bithumb_api.py:177-186`):
`None` when the list is empty or shorter than `sma_period`; otherwise the mean
of the volumes of `candles[-sma_period:]` (the whole list when `sma_period = 0`,
matching Python's `candles[-0:]`), divided by the slice's own length. -/
def calculate_volume_sma (sma_period : ℕ) (candles : List Candle) : Option ℚ :=
  if candles.isEmpty ∨ candles.length < sma_period then
    none
  else
    let volumes :=
      if sma_period = 0 then candles.map (·.volume)
      else (candles.drop (candles.length - sma_period)).map (·.volume)
    some (volumes.sum / volumes.length)

/-- `VolumeAnalyzer.check_volume_spike` (`src/bithumb_api.py:188-221`).
`current_volume? = none` models the Python default (use the last candle's
volume). -/
def check_volume_spike (sma_period : ℕ) (volume_multiplier : ℚ)
    (candles : List Candle) (current_volume? : Option ℚ) : SpikeResult :=
  let result : SpikeResult :=
    { is_spike := false, current_volume := 0, sma_volume := 0, multiplier := 0
      candles_needed := (sma_period : Int) }
  if candles.isEmpty then result
  else
    let cv : ℚ :=
      match current_volume? with
      | none => ((candles.getLast?).getD default).volume
      | some v => v
    let result := { result with current_volume := cv }
    match calculate_volume_sma sma_period candles with
    | none => { result with candles_needed := (sma_period : Int) - candles.length }
    | some sma =>
      if sma = 0 then
        { result with candles_needed := (sma_period : Int) - candles.length }
      else
        { result with
          sma_volume := sma
          multiplier := cv / sma
          is_spike := decide (cv / sma ≥ volume_multiplier) }

/-- The analysis dictionary returned by `VolumeAnalyzer.analyze_market`
(`src/bithumb_api.py:237-244`). -/
structure Analysis where
  symbol : String
  current_volume : ℚ
  sma_volume : ℚ
  multiplier : ℚ
  current_price : ℚ
  timestamp : Int
  deriving DecidableEq, Repr

/-- `VolumeAnalyzer.analyze_market` (`src/bithumb_api.py:223-246`): `none` for
an empty candle list; otherwise a populated analysis exactly when
`check_volume_spike` reports a spike, taking price/time from the last candle. -/
def analyze_market (sma_period : ℕ) (volume_multiplier : ℚ)
    (candles : List Candle) (symbol : String) : Option Analysis :=
  if candles.isEmpty then none
  else
    let analysis := check_volume_spike sma_period volume_multiplier candles none
    if analysis.is_spike then
      let last := (candles.getLast?).getD default
      some
        { symbol := symbol
          current_volume := analysis.current_volume
          sma_volume := analysis.sma_volume
          multiplier := analysis.multiplier
          current_price := last.close
          timestamp := last.time }
    else none

/-! ### Candle parsing (`BithumbAPI._parse_candles`) -/

/-- A Python value appearing as a candle field: either something `float(·)`
accepts (an int/float/numeric string, modelled by the rational it denotes), or
something on which `float(·)` raises `ValueError`/`TypeError`. -/
inductive PyVal where
  | num (q : ℚ)
  | bad
  deriving DecidableEq, Repr

/-- Python `float(v)`: succeeds exactly on numeric values. An exception is
modelled as `Except.error ()`. -/
def pyFloat : PyVal → Except Unit ℚ
  | .num q => .ok q
  | .bad => .error ()

/-- One raw record of the upstream candle payload
(`src/bithumb_api.py:124-142`):
* `arr time rest` — a Python list whose head is the (integer) timestamp and
  whose tail holds the remaining positional fields, so the Python list length
  is `1 + rest.length`;
* `obj time openV closeV highV lowV volV` — a dict, after the
  `get`-with-alias-and-default resolution of lines 136-141 (the defaults are
  numbers, so each field always resolves to some value);
* `other` — neither a list nor a dict. -/
inductive RawRecord where
  | arr (time : Int) (rest : List PyVal)
  | obj (time : Int) (openV closeV highV lowV volV : PyVal)
  | other
  deriving DecidableEq, Repr

/-- The per-record body of the parsing loop (`src/bithumb_api.py:124-142`):
`ok none` when the record is skipped (wrong shape or a list shorter than 6),
`ok (some c)` when it parses, `error ()` when an uncaught `float(...)`
exception aborts the loop. -/
def parseRecord : RawRecord → Except Unit (Option Candle)
  | .arr time rest =>
    if rest.length + 1 ≥ 6 then
      match pyFloat (rest.getD 0 .bad), pyFloat (rest.getD 1 .bad),
          pyFloat (rest.getD 2 .bad), pyFloat (rest.getD 3 .bad),
          pyFloat (rest.getD 4 .bad) with
      | .ok o, .ok c, .ok h, .ok l, .ok v => .ok (some ⟨time, o, c, h, l, v⟩)
      | _, _, _, _, _ => .error ()
    else .ok none
  | .obj time openV closeV highV lowV volV =>
    match pyFloat openV, pyFloat closeV, pyFloat highV, pyFloat lowV,
        pyFloat volV with
    | .ok o, .ok c, .ok h, .ok l, .ok v => .ok (some ⟨time, o, c, h, l, v⟩)
    | _, _, _, _, _ => .error ()
  | .other => .ok none

/-- The accumulation loop of `_parse_candles`: processes records in order,
appending parsed candles; the first uncaught exception aborts the batch. -/
def parseLoop : List RawRecord → Except Unit (List Candle)
  | [] => .ok []
  | r :: rs =>
    match parseRecord r with
    | .error e => .error e
    | .ok c? =>
      match parseLoop rs with
      | .error e => .error e
      | .ok rest => .ok (match c? with | some c => c :: rest | none => rest)

/-- The key order used by `parsed.sort(key=lambda x: x['time'])`
(`src/bithumb_api.py:144`). -/
def timeLE (a b : Candle) : Prop := a.time ≤ b.time

instance : DecidableRel timeLE := fun a b => inferInstanceAs (Decidable (a.time ≤ b.time))

/-- The stable ascending-by-time sort `parsed.sort(key=lambda x: x['time'])`
performs (`src/bithumb_api.py:144`), modelled by stable insertion sort. -/
def sortByTime (l : List Candle) : List Candle := l.insertionSort timeLE

/-- `BithumbAPI._parse_candles` (`src/bithumb_api.py:119-145`): parse each
record, then stably sort the survivors by time ascending. The Python version
raises out of the method when a recognized-shape record holds a non-numeric
field; here that is the `Except.error` case. -/
def parse_candles (raw : List RawRecord) : Except Unit (List Candle) :=
  match parseLoop raw with
  | .error e => .error e
  | .ok parsed => .ok (sortByTime parsed)

/-! ### HTTP fetch layer (`BithumbAPI._request_json`, `get_candlestick`) -/

/-- The JSON body of a transport-successful Bithumb response: a domain status
string plus the candle payload (`data`). -/
structure JsonBody where
  status : String
  data : List RawRecord
  deriving Repr

/-- What one HTTP attempt inside `_request_json` can do
(`src/bithumb_api.py:38-47`): return a JSON body, or fail on one of the three
caught exception classes — all three map to the same retry branch. -/
inductive AttemptOutcome where
  | ok (body : JsonBody)
  | timeout
  | transportError
  | unexpected

/-- An attempt outcome that takes the retry branch (any of the three caught
exception classes). -/
def AttemptOutcome.failed : AttemptOutcome → Bool
  | .ok _ => false
  | .timeout => true
  | .transportError => true
  | .unexpected => true

/-- The trace `_request_json` leaves behind: the returned value, how many
attempts were made, and the sleep durations inserted between attempts (in
seconds, in order). -/
structure RequestTrace where
  result : Option JsonBody
  attemptsMade : ℕ
  delays : List ℚ
  deriving Repr

/-- The retry loop of `_request_json` (`src/bithumb_api.py:37-54`), with the
network as an oracle from the 1-based attempt number to its outcome and the
`random.uniform(0, 0.2)` draws as a jitter oracle. `remaining` counts the
attempts still allowed (initially `max_retries + 1`). After a failed attempt
that is not the last, the loop sleeps
`min(3.0, 0.3 * 2^(attempt-1)) + jitter attempt` seconds. -/
def requestLoop (network : ℕ → AttemptOutcome) (jitter : ℕ → ℚ) :
    (attempt remaining : ℕ) → RequestTrace
  | _, 0 => { result := none, attemptsMade := 0, delays := [] }
  | attempt, remaining + 1 =>
    match network attempt with
    | .ok body => { result := some body, attemptsMade := 1, delays := [] }
    | _ =>
      if remaining = 0 then
        { result := none, attemptsMade := 1, delays := [] }
      else
        let tail := requestLoop network jitter (attempt + 1) remaining
        { result := tail.result
          attemptsMade := tail.attemptsMade + 1
          delays := (min 3 ((3 / 10) * 2 ^ (attempt - 1)) + jitter attempt) :: tail.delays }

/-- `BithumbAPI._request_json` (`src/bithumb_api.py:34-54`): runs
`max_retries + 1` attempts starting at attempt 1. -/
def request_json (max_retries : ℕ) (network : ℕ → AttemptOutcome)
    (jitter : ℕ → ℚ) : RequestTrace :=
  requestLoop network jitter 1 (max_retries + 1)

/-- `BithumbAPI.get_candlestick` (`src/bithumb_api.py:78-117`): fetch the JSON
via the retry layer; on transport failure return `none`; on domain status
`"0000"` parse the candles; on any other domain status return `none`
immediately without further attempts. The trace records the attempt count and
delays of the single `_request_json` call it makes. A parse exception
propagates (the `Except` layer). -/
def get_candlestick (max_retries : ℕ) (network : ℕ → AttemptOutcome)
    (jitter : ℕ → ℚ) : Except Unit (Option (List Candle)) × RequestTrace :=
  let trace := request_json max_retries network jitter
  match trace.result with
  | none => (.ok none, trace)
  | some body =>
    if body.status = "0000" then
      (match parse_candles body.data with
       | .error e => .error e
       | .ok cs => .ok (some cs), trace)
    else
      (.ok none, trace)

/-! ### Alert cache persistence (`_load_alert_cache`, `_save_alert_cache`) -/

/-- What a file at the cache path can hold: nothing, a JSON array of strings
(the only shape `_save_alert_cache` writes), or unparsable/other-shaped
contents. -/
inductive FileData where
  | absent
  | jsonList (xs : List String)
  | corrupt
  deriving DecidableEq, Repr

/-- `BithumbVolumeMonitor._load_alert_cache` (`src/main.py:94-105`), as the set
it leaves in `self.alerted_symbols` starting from the empty set: a missing or
unreadable file keeps the empty set; a JSON array keeps `str(symbol)` for each
truthy element, so empty strings are dropped by the `if symbol` filter. -/
def load_alert_cache : FileData → Finset String
  | .absent => ∅
  | .corrupt => ∅
  | .jsonList xs => (xs.filter (· ≠ "")).toFinset

/-- The serialized payload `_save_alert_cache` writes (`src/main.py:113-115`):
the symbols as a JSON array, sorted. -/
def saveData (symbols : Finset String) : FileData :=
  .jsonList (symbols.sort (· ≤ ·))

/-- The two files `_save_alert_cache` touches: the target cache path and its
sibling `.tmp` path. -/
structure CacheFS where
  target : FileData
  temp : FileData
  deriving DecidableEq, Repr

/-- `BithumbVolumeMonitor._save_alert_cache` (`src/main.py:107-118`) run to
completion: write the serialized payload to the temp file, then rename it over
the target. -/
def save_alert_cache (symbols : Finset String) (_ : CacheFS) : CacheFS :=
  { target := saveData symbols, temp := .absent }

/-- The filesystem state if the process crashes after `temp_path.write_text`
(`src/main.py:115`) but before `temp_path.replace` (`src/main.py:116`): the
temp file holds the new payload, the target is untouched. -/
def save_crash_mid_write (symbols : Finset String) (fs : CacheFS) : CacheFS :=
  { target := fs.target, temp := saveData symbols }

/-! ### Reset policy and alerting step (`BithumbVolumeMonitor`) -/

/-- The monitor state the dedup/reset logic touches: the in-memory alerted set,
the last reset instant (seconds since epoch, `none` until established), and the
persisted cache file. -/
structure MonitorState where
  alerted : Finset String
  lastResetTime : Option ℚ
  cacheFile : FileData
  deriving DecidableEq

/-- The state `BithumbVolumeMonitor.__init__` leaves (`src/main.py:89-92`):
alerted set restored from the cache file, `last_reset_time = None`. -/
def initState (file : FileData) : MonitorState :=
  { alerted := load_alert_cache file, lastResetTime := none, cacheFile := file }

/-- `BithumbVolumeMonitor._reset_alerted_symbols_if_needed`
(`src/main.py:169-188`), with `datetime.now()` passed in as `now` (seconds).
`timedelta(hours=h)` is `h * 3600` seconds. -/
def reset_alerted_symbols_if_needed (alert_reset_hours : Option ℤ) (now : ℚ)
    (st : MonitorState) : MonitorState :=
  match alert_reset_hours with
  | none => st
  | some h =>
    match st.lastResetTime with
    | none => { st with lastResetTime := some now }
    | some t =>
      if now - t ≥ (h : ℚ) * 3600 then
        { alerted := ∅, lastResetTime := some now, cacheFile := saveData ∅ }
      else st

/-- `BithumbVolumeMonitor.send_alert_if_needed` (`src/main.py:190-218`) on a
non-empty analysis for `symbol`: run the reset policy, skip if already
alerted, otherwise invoke the notifier (outcome given by `notifierOk`); only on
success add the symbol and persist. Returns the new state and whether the
notifier was invoked. -/
def send_alert_if_needed (alert_reset_hours : Option ℤ) (now : ℚ)
    (notifierOk : Bool) (symbol : String) (st : MonitorState) :
    MonitorState × Bool :=
  let st := reset_alerted_symbols_if_needed alert_reset_hours now st
  if symbol ∈ st.alerted then
    (st, false)
  else if notifierOk then
    let newAlerted := insert symbol st.alerted
    ({ st with alerted := newAlerted, cacheFile := saveData newAlerted }, true)
  else
    (st, true)

/-! ### Per-symbol check and config validation -/

/-- The candle count `check_symbol_volume` requests from `get_candlestick`
(`src/main.py:142`), hardcoded. -/
def requested_candle_count : ℕ := 50

/-- `BithumbVolumeMonitor.check_symbol_volume` (`src/main.py:127-167`) after
the fetch: `candles? = none` models an unavailable response. Skip when the
response is missing or shorter than the fixed minimum 20; analyze; apply the
liquidity filter; on success return the analysis together with its notional
KRW value. -/
def check_symbol_volume (sma_period : ℕ) (volume_multiplier min_krw_volume : ℚ)
    (symbol : String) (candles? : Option (List Candle)) : Option (Analysis × ℚ) :=
  match candles? with
  | none => none
  | some candles =>
    if candles.length < 20 then none
    else
      match analyze_market sma_period volume_multiplier candles symbol with
      | none => none
      | some analysis =>
        let notional := analysis.current_volume * analysis.current_price
        if min_krw_volume > 0 ∧ notional < min_krw_volume then none
        else some (analysis, notional)

/-- The `valid_intervals` list of `validate_config` (`src/main.py:328`). -/
def valid_intervals : List String := ["1m", "3m", "5m", "15m", "30m", "1h", "4h", "1d"]

/-- `validate_config` (`src/main.py:299-355`): true exactly when no error
condition fires. Each disjunct mirrors one `errors.append` guard, in order. -/
def validate_config (check_interval : ℤ) (volume_multiplier : ℚ)
    (sma_period : ℤ) (candle_interval : String)
    (api_timeout webhook_timeout : ℤ) (api_delay : ℚ)
    (alert_reset_hours : Option ℤ) (min_krw_volume : ℚ)
    (api_max_retries : ℤ) : Bool :=
  !(decide (check_interval < 60) ||
    decide (volume_multiplier ≤ 0) ||
    decide (sma_period < 1) ||
    !(valid_intervals.contains candle_interval) ||
    decide (api_timeout < 1) ||
    decide (webhook_timeout < 1) ||
    decide (api_delay < 0) ||
    (match alert_reset_hours with
     | some h => decide (h < 1)
     | none => false) ||
    decide (min_krw_volume < 0) ||
    decide (api_max_retries < 0))

/-! ## Theorems -/

/-- The mean computed by `calculate_volume_sma` is nonnegative whenever every
candle volume is nonnegative (the spec's data-model invariant `volume ≥ 0`). -/
theorem calculate_volume_sma_nonneg {p : ℕ} {candles : List Candle} {s : ℚ}
    (hvol : ∀ c ∈ candles, 0 ≤ c.volume)
    (hsma : calculate_volume_sma p candles = some s) : 0 ≤ s := by
  rw [calculate_volume_sma] at hsma
  by_cases hcond : (candles.isEmpty ∨ candles.length < p)
  · rw [if_pos hcond] at hsma
    exact absurd hsma (by simp)
  · rw [if_neg hcond] at hsma
    simp only [Option.some.injEq] at hsma
    subst hsma
    refine div_nonneg (List.sum_nonneg ?_) (by positivity)
    intro x hx
    by_cases hp : p = 0
    · simp only [hp, if_pos] at hx
      obtain ⟨c, hc, rfl⟩ := List.mem_map.mp hx
      exact hvol c hc
    · simp only [hp, if_neg, if_false] at hx
      obtain ⟨c, hc, rfl⟩ := List.mem_map.mp hx
      exact hvol c (List.drop_subset _ _ hc)

/-- A candle list with an `some`-valued SMA is nonempty. -/
theorem calculate_volume_sma_ne_nil {p : ℕ} {candles : List Candle} {s : ℚ}
    (hsma : calculate_volume_sma p candles = some s) : candles.isEmpty = false := by
  rcases candles with _ | ⟨a, l⟩
  · rw [calculate_volume_sma] at hsma
    simp at hsma
  · rfl

/-- C1: with at least `window` candles and a strictly positive volume SMA,
`check_volume_spike` classifies a spike exactly when
`currentVolume / smaVolume >= multiplier`; in particular a ratio exactly equal
to the configured multiplier is classified as a spike (inclusive threshold). -/
theorem check_volume_spike_iff_ratio_ge (p : ℕ) (m : ℚ) (candles : List Candle)
    (s : ℚ) (hlen : p ≤ candles.length)
    (hsma : calculate_volume_sma p candles = some s) (hpos : 0 < s) :
    ((check_volume_spike p m candles none).is_spike = true ↔
      ((candles.getLast?).getD default).volume / s ≥ m) ∧
    (((candles.getLast?).getD default).volume / s = m →
      (check_volume_spike p m candles none).is_spike = true) := by
  have hne := calculate_volume_sma_ne_nil hsma
  have hmain : (check_volume_spike p m candles none).is_spike =
      decide (((candles.getLast?).getD default).volume / s ≥ m) := by
    rw [check_volume_spike]
    simp only [hne, Bool.false_eq_true, if_false, hsma, hpos.ne', if_neg]
  constructor
  · rw [hmain]
    exact decide_eq_true_iff
  · intro heq
    rw [hmain]
    exact decide_eq_true (le_of_eq heq.symm)

/-- Witness for `check_volume_spike_iff_ratio_ge` at a single candle of volume
10, window 1, multiplier 1: the ratio is exactly 1 and the spike fires. -/
theorem check_volume_spike_iff_ratio_ge_witness :
    ((check_volume_spike 1 1 [⟨0, 0, 0, 0, 0, 10⟩] none).is_spike = true ↔
      ((([(⟨0, 0, 0, 0, 0, 10⟩ : Candle)].getLast?).getD default).volume / 10 ≥ 1)) ∧
    (check_volume_spike 1 1 [⟨0, 0, 0, 0, 0, 10⟩] none).is_spike = true := by
  have h := check_volume_spike_iff_ratio_ge 1 1 [⟨0, 0, 0, 0, 0, 10⟩] 10
    (by decide) (by simp [calculate_volume_sma]) (by norm_num)
  exact ⟨h.1, h.2 (by simp)⟩

/-- C6: spike classification is monotonic in the current-volume override, for
any candle history satisfying the data-model invariant `volume ≥ 0`
(including the empty, insufficient-data and zero-SMA branches, where no
override spikes). -/
theorem check_volume_spike_monotone (p : ℕ) (m : ℚ) (candles : List Candle)
    (hvol : ∀ c ∈ candles, 0 ≤ c.volume) (v1 v2 : ℚ) (h12 : v1 ≤ v2)
    (hs : (check_volume_spike p m candles (some v1)).is_spike = true) :
    (check_volume_spike p m candles (some v2)).is_spike = true := by
  by_cases hne : candles.isEmpty
  · rw [check_volume_spike] at hs
    simp [hne] at hs
  · rcases hcalc : calculate_volume_sma p candles with _ | s
    · rw [check_volume_spike] at hs
      simp [hne, hcalc] at hs
    · by_cases hz : s = 0
      · rw [check_volume_spike] at hs
        simp [hne, hcalc, hz] at hs
      · have hpos : 0 < s :=
          lt_of_le_of_ne (calculate_volume_sma_nonneg hvol hcalc) (Ne.symm hz)
        rw [check_volume_spike] at hs ⊢
        simp only [hne, Bool.false_eq_true, if_false, hcalc, hz, if_neg,
          decide_eq_true_iff] at hs ⊢
        exact le_trans hs ((div_le_div_iff_of_pos_right hpos).mpr h12)

/-- Witness for `check_volume_spike_monotone`: volume history `[10]`, window 1,
multiplier 1, overrides 10 ≤ 20. -/
theorem check_volume_spike_monotone_witness :
    (check_volume_spike 1 1 [⟨0, 0, 0, 0, 0, 10⟩] (some 20)).is_spike = true :=
  check_volume_spike_monotone 1 1 [⟨0, 0, 0, 0, 0, 10⟩] (by simp) 10 20
    (by norm_num) (by simp [check_volume_spike, calculate_volume_sma])

/-- C7: `analyze_market` returns a populated analysis iff `check_volume_spike`
reports a spike, and the returned price/timestamp are the last candle's
close/time. -/
theorem analyze_market_iff_spike (p : ℕ) (m : ℚ) (candles : List Candle)
    (symbol : String) :
    ((analyze_market p m candles symbol).isSome ↔
      (check_volume_spike p m candles none).is_spike = true) ∧
    (∀ a, analyze_market p m candles symbol = some a →
      a.current_price = ((candles.getLast?).getD default).close ∧
      a.timestamp = ((candles.getLast?).getD default).time) := by
  by_cases hne : candles.isEmpty
  · constructor
    · rw [analyze_market, check_volume_spike]
      simp [hne]
    · intro a ha
      rw [analyze_market] at ha
      simp [hne] at ha
  · constructor
    · rw [analyze_market]
      simp only [hne, Bool.false_eq_true, if_false]
      by_cases hs : (check_volume_spike p m candles none).is_spike <;> simp [hs]
    · intro a ha
      rw [analyze_market] at ha
      simp only [hne, Bool.false_eq_true, if_false] at ha
      by_cases hs : (check_volume_spike p m candles none).is_spike
      · simp only [hs, if_pos, Option.some.injEq] at ha
        subst ha
        exact ⟨rfl, rfl⟩
      · simp [hs] at ha

/-- Witness for `analyze_market_iff_spike`: a single candle with volume 10,
close 7, time 42; window 1, multiplier 1 → spike, and the analysis carries
close 7 and time 42. -/
theorem analyze_market_iff_spike_witness :
    analyze_market 1 1 [⟨42, 0, 7, 0, 0, 10⟩] "BTC" =
      some ⟨"BTC", 10, 10, 1, 7, 42⟩ ∧
    ((⟨"BTC", 10, 10, 1, 7, 42⟩ : Analysis).current_price =
        ((([(⟨42, 0, 7, 0, 0, 10⟩ : Candle)]).getLast?).getD default).close ∧
      (⟨"BTC", 10, 10, 1, 7, 42⟩ : Analysis).timestamp =
        ((([(⟨42, 0, 7, 0, 0, 10⟩ : Candle)]).getLast?).getD default).time) := by
  refine ⟨by simp [analyze_market, check_volume_spike, calculate_volume_sma], ?_⟩
  exact (analyze_market_iff_spike 1 1 [⟨42, 0, 7, 0, 0, 10⟩] "BTC").2
    ⟨"BTC", 10, 10, 1, 7, 42⟩
    (by simp [analyze_market, check_volume_spike, calculate_volume_sma])

/-- C8: whenever parsing succeeds — for any input list and hence for every
permutation of it — the output is sorted ascending by the time field. -/
theorem parse_candles_sorted (raw raw' : List RawRecord) (hperm : raw.Perm raw')
    (l' : List Candle) (h' : parse_candles raw' = .ok l') :
    List.Sorted (fun a b : Candle => a.time ≤ b.time) l' := by
  clear hperm
  rw [parse_candles] at h'
  rcases hp : parseLoop raw' with e | parsed
  · rw [hp] at h'
    exact absurd h' (by simp)
  · rw [hp] at h'
    simp only [Except.ok.injEq] at h'
    subst h'
    haveI : IsTotal Candle timeLE := ⟨fun a b => Int.le_total a.time b.time⟩
    haveI : IsTrans Candle timeLE := ⟨fun _ _ _ hab hbc => le_trans hab hbc⟩
    exact List.sorted_insertionSort timeLE parsed

/-- Witness for `parse_candles_sorted`: two array records given in descending
time order; the parse of the reordered list is sorted. -/
theorem parse_candles_sorted_witness :
    List.Sorted (fun a b : Candle => a.time ≤ b.time)
      [⟨3, 9, 8, 7, 6, 5⟩, ⟨5, 1, 2, 3, 4, 5⟩] :=
  parse_candles_sorted
    [.arr 3 [.num 9, .num 8, .num 7, .num 6, .num 5],
     .arr 5 [.num 1, .num 2, .num 3, .num 4, .num 5]]
    [.arr 5 [.num 1, .num 2, .num 3, .num 4, .num 5],
     .arr 3 [.num 9, .num 8, .num 7, .num 6, .num 5]]
    (List.Perm.swap _ _ _)
    [⟨3, 9, 8, 7, 6, 5⟩, ⟨5, 1, 2, 3, 4, 5⟩]
    rfl

/-- C9 counterexample: a list-shaped record of full length whose open field is
not float-convertible makes `_parse_candles` raise out of the batch — it does
not return normally, so a malformed record can be fatal to the whole batch. -/
theorem parse_candles_batch_abort :
    parse_candles [.arr 5 [.bad, .num 1, .num 1, .num 1, .num 1]] = .error () := rfl

/-- C9 amended: a record of unrecognized shape (not a list of length ≥ 6, not
a dict) is skipped individually with all remaining records still parsed, and
when every record's fields convert, parsing completes normally; but a
recognized-shape record with a non-convertible field aborts the batch (see
`parse_candles_batch_abort`). -/
theorem parse_candles_skips_malformed (raw raw1 raw2 : List RawRecord)
    (r : RawRecord) (hr : parseRecord r = .ok none)
    (hok : ∀ x ∈ raw, parseRecord x ≠ .error ()) :
    parse_candles (raw1 ++ r :: raw2) = parse_candles (raw1 ++ raw2) ∧
    ∃ l, parse_candles raw = .ok l := by
  constructor
  · have key : ∀ rs1 : List RawRecord, ∀ rs2 : List RawRecord,
        parseLoop (rs1 ++ r :: rs2) = parseLoop (rs1 ++ rs2) := by
      intro rs1 rs2
      induction rs1 with
      | nil =>
        cases h2 : parseLoop rs2 <;> simp [parseLoop, hr, h2]
      | cons x xs ih => simp [parseLoop, ih]
    rw [parse_candles, parse_candles, key]
  · have key : ∀ rs : List RawRecord, (∀ x ∈ rs, parseRecord x ≠ .error ()) →
        ∃ cs, parseLoop rs = .ok cs := by
      intro rs hrs
      induction rs with
      | nil => exact ⟨[], rfl⟩
      | cons x xs ih =>
        obtain ⟨cs, hcs⟩ := ih (fun y hy => hrs y (by simp [hy]))
        rcases hx : parseRecord x with e | c?
        · cases e
          exact absurd hx (hrs x (by simp))
        · cases c? with
          | none => exact ⟨cs, by rw [parseLoop, hx, hcs]⟩
          | some c => exact ⟨c :: cs, by rw [parseLoop, hx, hcs]⟩
    obtain ⟨cs, hcs⟩ := key raw hok
    exact ⟨sortByTime cs, by rw [parse_candles, hcs]⟩

/-- Witness for `parse_candles_skips_malformed`: a non-list/dict record between
two well-formed array records is dropped without affecting them, and a batch of
well-valued records parses normally. -/
theorem parse_candles_skips_malformed_witness :
    parse_candles [.arr 1 [.num 1, .num 1, .num 1, .num 1, .num 1],
        .other,
        .arr 2 [.num 2, .num 2, .num 2, .num 2, .num 2]] =
      parse_candles [.arr 1 [.num 1, .num 1, .num 1, .num 1, .num 1],
        .arr 2 [.num 2, .num 2, .num 2, .num 2, .num 2]] ∧
    ∃ l, parse_candles [.arr 1 [.num 1, .num 1, .num 1, .num 1, .num 1],
        .arr 2 [.num 2, .num 2, .num 2, .num 2, .num 2]] = .ok l :=
  parse_candles_skips_malformed
    [.arr 1 [.num 1, .num 1, .num 1, .num 1, .num 1],
     .arr 2 [.num 2, .num 2, .num 2, .num 2, .num 2]]
    [.arr 1 [.num 1, .num 1, .num 1, .num 1, .num 1]]
    [.arr 2 [.num 2, .num 2, .num 2, .num 2, .num 2]]
    .other rfl
    (by intro x hx
        simp only [List.mem_cons, List.not_mem_nil, or_false] at hx
        rcases hx with rfl | rfl <;> simp [parseRecord, pyFloat])

/-- The retry loop makes at most `remaining` attempts. -/
theorem requestLoop_attempts_le (network : ℕ → AttemptOutcome) (jitter : ℕ → ℚ) :
    ∀ remaining attempt,
      (requestLoop network jitter attempt remaining).attemptsMade ≤ remaining := by
  intro remaining
  induction remaining with
  | zero => intro attempt; simp [requestLoop]
  | succ r ih =>
    intro attempt
    rw [requestLoop]
    rcases network attempt with b | _ | _ | _ <;> simp only
    · exact Nat.le_add_left 1 r
    all_goals
      by_cases hr : r = 0
      · simp [hr]
      · simp only [hr, if_false]
        exact Nat.succ_le_succ (ih (attempt + 1))

/-- When every attempt takes the retry branch, the loop makes exactly
`remaining` attempts and returns no result. -/
theorem requestLoop_all_fail (network : ℕ → AttemptOutcome) (jitter : ℕ → ℚ)
    (hfail : ∀ n, (network n).failed = true) :
    ∀ remaining attempt,
      (requestLoop network jitter attempt remaining).attemptsMade = remaining ∧
      (requestLoop network jitter attempt remaining).result = none := by
  intro remaining
  induction remaining with
  | zero => intro attempt; simp [requestLoop]
  | succ r ih =>
    intro attempt
    have h := hfail attempt
    rw [requestLoop]
    rcases hn : network attempt with b | _ | _ | _
    · rw [hn] at h; simp [AttemptOutcome.failed] at h
    all_goals
      simp only
      by_cases hr : r = 0
      · simp [hr]
      · simp only [hr, if_false]
        exact ⟨by rw [(ih (attempt + 1)).1], (ih (attempt + 1)).2⟩

/-- Each recorded sleep of the retry loop follows the capped exponential
formula at its attempt index. -/
theorem requestLoop_delays (network : ℕ → AttemptOutcome) (jitter : ℕ → ℚ) :
    ∀ remaining attempt i,
      i < (requestLoop network jitter attempt remaining).delays.length →
      (requestLoop network jitter attempt remaining).delays[i]? =
        some (min 3 ((3 / 10) * 2 ^ (attempt + i - 1)) + jitter (attempt + i)) := by
  intro remaining
  induction remaining with
  | zero => intro attempt i h; simp [requestLoop] at h
  | succ r ih =>
    intro attempt i
    rw [requestLoop]
    rcases network attempt with b | _ | _ | _ <;> simp only
    · intro h; simp at h
    all_goals
      by_cases hr : r = 0
      · subst hr
        simp only [if_pos rfl]
        intro h; simp at h
      · simp only [hr, if_false]
        intro h
        cases i with
        | zero => simp
        | succ j =>
          simp only [List.length_cons, Nat.succ_lt_succ_iff] at h
          have hj := ih (attempt + 1) j h
          simp only [List.getElem?_cons_succ]
          rw [hj]
          have e1 : attempt + 1 + j - 1 = attempt + (j + 1) - 1 := by omega
          have e2 : attempt + 1 + j = attempt + (j + 1) := by omega
          rw [e1, e2]

/-- The loop sleeps after every attempt except the last one made. -/
theorem requestLoop_delay_count (network : ℕ → AttemptOutcome) (jitter : ℕ → ℚ) :
    ∀ remaining attempt, 1 ≤ remaining →
      (requestLoop network jitter attempt remaining).delays.length + 1 =
        (requestLoop network jitter attempt remaining).attemptsMade := by
  intro remaining
  induction remaining with
  | zero => intro _ h; omega
  | succ r ih =>
    intro attempt _
    rw [requestLoop]
    rcases network attempt with b | _ | _ | _ <;> simp only
    · simp
    all_goals
      by_cases hr : r = 0
      · simp [hr]
      · simp only [hr, if_false, List.length_cons]
        rw [ih (attempt + 1) (by omega)]

/-- C3: the retry policy of `_request_json` and `get_candlestick`. At most
`max_retries + 1` attempts are made, and exactly that many in the worst case
(every attempt failing); the sleep before attempt `i + 2` is
`min(3.0, 0.3 * 2^i)` plus the jitter draw, which `random.uniform(0, 0.2)`
keeps in `[0, 0.2]`; there is no sleep after the final attempt; and a
transport-successful response with a non-`"0000"` domain status is returned as
a failure after a single attempt, with no retry and no sleep. -/
theorem request_json_retry_policy (max_retries : ℕ)
    (network : ℕ → AttemptOutcome) (jitter : ℕ → ℚ)
    (hj : ∀ n, 0 ≤ jitter n ∧ jitter n ≤ 1 / 5) :
    (request_json max_retries network jitter).attemptsMade ≤ max_retries + 1 ∧
    ((∀ n, (network n).failed = true) →
      (request_json max_retries network jitter).attemptsMade = max_retries + 1 ∧
      (request_json max_retries network jitter).result = none) ∧
    (∀ i, i < (request_json max_retries network jitter).delays.length →
      ∃ jit, 0 ≤ jit ∧ jit ≤ 1 / 5 ∧
        (request_json max_retries network jitter).delays[i]? =
          some (min 3 ((3 / 10) * 2 ^ i) + jit)) ∧
    (request_json max_retries network jitter).delays.length + 1 =
      (request_json max_retries network jitter).attemptsMade ∧
    (∀ body, network 1 = .ok body → body.status ≠ "0000" →
      get_candlestick max_retries network jitter =
        (.ok none, { result := some body, attemptsMade := 1, delays := [] })) := by
  refine ⟨requestLoop_attempts_le network jitter _ _, ?_, ?_, ?_, ?_⟩
  · intro hfail
    exact requestLoop_all_fail network jitter hfail _ _
  · intro i h
    rw [request_json] at h ⊢
    refine ⟨jitter (1 + i), (hj (1 + i)).1, (hj (1 + i)).2, ?_⟩
    have hd := requestLoop_delays network jitter (max_retries + 1) 1 i h
    have e : 1 + i - 1 = i := by omega
    rw [e] at hd
    exact hd
  · exact requestLoop_delay_count network jitter (max_retries + 1) 1 (by omega)
  · intro body hnet hstatus
    have htrace : request_json max_retries network jitter =
        { result := some body, attemptsMade := 1, delays := [] } := by
      rw [request_json, requestLoop, hnet]
    rw [get_candlestick, htrace]
    simp [hstatus]

/-- Witness for `request_json_retry_policy`: `max_retries = 2` with an
always-timing-out network makes exactly 3 attempts and returns nothing. -/
theorem request_json_retry_policy_witness :
    (request_json 2 (fun _ => .timeout) (fun _ => 0)).attemptsMade = 2 + 1 ∧
    (request_json 2 (fun _ => .timeout) (fun _ => 0)).result = none :=
  (request_json_retry_policy 2 (fun _ => .timeout) (fun _ => 0)
    (fun _ => by norm_num)).2.1 (fun _ => rfl)

/-- C4 counterexample: the round trip is not exact for every set of symbol
strings — saving the set `{""}` and loading it back yields `∅`, because
`_load_alert_cache` keeps only truthy entries (`if symbol`), dropping the
empty string. -/
theorem save_load_roundtrip_cex :
    load_alert_cache (save_alert_cache {""} ⟨.absent, .absent⟩).target ≠
      ({""} : Finset String) := by
  have h : load_alert_cache (save_alert_cache {""} ⟨.absent, .absent⟩).target = ∅ := by
    simp [save_alert_cache, saveData, load_alert_cache, Finset.sort_singleton]
  rw [h]
  exact (Finset.singleton_ne_empty "").symm

/-- C4 amended: for every set of non-empty symbol strings, a completed `save`
followed by a fresh `load` yields exactly the saved set; and a crash between
the temp-file write and the rename leaves the previously saved target file
byte-for-byte intact. -/
theorem save_load_roundtrip (S : Finset String) (hS : "" ∉ S) (fs : CacheFS) :
    load_alert_cache (save_alert_cache S fs).target = S ∧
    (save_crash_mid_write S fs).target = fs.target := by
  refine ⟨?_, rfl⟩
  simp only [save_alert_cache, saveData, load_alert_cache]
  rw [List.filter_eq_self.mpr, Finset.sort_toFinset]
  intro a ha
  have haS : a ∈ S := (Finset.mem_sort (α := String) (· ≤ ·)).mp ha
  simp only [ne_eq, decide_not, Bool.not_eq_true', decide_eq_false_iff_not]
  exact fun h => hS (h ▸ haS)

/-- Witness for `save_load_roundtrip`: saving `{"BTC"}` over a stale cache
round-trips, and a mid-write crash keeps the stale target. -/
theorem save_load_roundtrip_witness :
    load_alert_cache
        (save_alert_cache {"BTC"} ⟨.jsonList ["OLD"], .absent⟩).target =
      ({"BTC"} : Finset String) ∧
    (save_crash_mid_write {"BTC"} ⟨.jsonList ["OLD"], .absent⟩).target =
      FileData.jsonList ["OLD"] :=
  save_load_roundtrip {"BTC"} (by simp) ⟨.jsonList ["OLD"], .absent⟩

/-- C5: the reset policy. Construction leaves no reset timestamp; with a
configured interval the first check establishes the timestamp without clearing
or persisting anything; a later check at or past the interval clears the set
wholesale, updates the timestamp and persists the cleared state immediately; a
later check within the interval changes nothing; with no configured interval
the state is never touched. -/
theorem reset_policy (hours : ℤ) (now t : ℚ) (st : MonitorState) :
    (∀ file, (initState file).lastResetTime = none) ∧
    (st.lastResetTime = none →
      reset_alerted_symbols_if_needed (some hours) now st =
        { st with lastResetTime := some now }) ∧
    (st.lastResetTime = some t → now - t ≥ (hours : ℚ) * 3600 →
      reset_alerted_symbols_if_needed (some hours) now st =
        { alerted := ∅, lastResetTime := some now, cacheFile := saveData ∅ }) ∧
    (st.lastResetTime = some t → ¬(now - t ≥ (hours : ℚ) * 3600) →
      reset_alerted_symbols_if_needed (some hours) now st = st) ∧
    (∀ now' st', reset_alerted_symbols_if_needed none now' st' = st') := by
  refine ⟨fun _ => rfl, ?_, ?_, ?_, fun _ _ => rfl⟩
  · intro h
    rw [reset_alerted_symbols_if_needed, h]
  · intro h hge
    rw [reset_alerted_symbols_if_needed, h]
    simp only [if_pos hge]
  · intro h hlt
    rw [reset_alerted_symbols_if_needed, h]
    simp only [if_neg hlt]

/-- Witness for `reset_policy`: interval 1 hour, last reset at t = 0, check at
now = 3600 s — the set `{"BTC"}` is cleared, the timestamp moves to 3600, and
the empty set is persisted. -/
theorem reset_policy_witness :
    reset_alerted_symbols_if_needed (some 1) 3600
        { alerted := {"BTC"}, lastResetTime := some 0,
          cacheFile := saveData {"BTC"} } =
      { alerted := ∅, lastResetTime := some 3600, cacheFile := saveData ∅ } :=
  ((reset_policy 1 3600 0
      { alerted := {"BTC"}, lastResetTime := some 0,
        cacheFile := saveData {"BTC"} }).2.2.1) rfl (by norm_num)

/-- C2: the alerting step. A symbol already in the (post-reset) alerted set is
skipped without invoking the notifier; a failed notifier call leaves the state
exactly as the reset step left it, so the symbol stays eligible; a successful
call adds the symbol and persists the grown set; and across two consecutive
sweeps with no reset clearing in between, the notifier fires exactly once. -/
theorem send_alert_dedup (hours : Option ℤ) (now1 now2 : ℚ) (symbol : String)
    (st : MonitorState) :
    (∀ ok, symbol ∈ (reset_alerted_symbols_if_needed hours now1 st).alerted →
      (send_alert_if_needed hours now1 ok symbol st).2 = false) ∧
    (symbol ∉ (reset_alerted_symbols_if_needed hours now1 st).alerted →
      (send_alert_if_needed hours now1 false symbol st).1 =
        reset_alerted_symbols_if_needed hours now1 st ∧
      symbol ∉ (send_alert_if_needed hours now1 false symbol st).1.alerted) ∧
    (symbol ∉ (reset_alerted_symbols_if_needed hours now1 st).alerted →
      (send_alert_if_needed hours now1 true symbol st).1.alerted =
        insert symbol (reset_alerted_symbols_if_needed hours now1 st).alerted ∧
      (send_alert_if_needed hours now1 true symbol st).1.cacheFile =
        saveData
          (insert symbol (reset_alerted_symbols_if_needed hours now1 st).alerted)) ∧
    (∀ ok2, symbol ∉ (reset_alerted_symbols_if_needed hours now1 st).alerted →
      (reset_alerted_symbols_if_needed hours now2
          (send_alert_if_needed hours now1 true symbol st).1).alerted =
        (send_alert_if_needed hours now1 true symbol st).1.alerted →
      (send_alert_if_needed hours now1 true symbol st).2 = true ∧
      (send_alert_if_needed hours now2 ok2 symbol
          (send_alert_if_needed hours now1 true symbol st).1).2 = false) := by
  refine ⟨?_, ?_, ?_, ?_⟩
  · intro ok hmem
    simp [send_alert_if_needed, hmem]
  · intro hmem
    have h1 : (send_alert_if_needed hours now1 false symbol st).1 =
        reset_alerted_symbols_if_needed hours now1 st := by
      simp [send_alert_if_needed, hmem]
    exact ⟨h1, h1 ▸ hmem⟩
  · intro hmem
    constructor <;> simp [send_alert_if_needed, hmem]
  · intro ok2 hmem hnoclear
    refine ⟨by simp [send_alert_if_needed, hmem], ?_⟩
    set st2 := (send_alert_if_needed hours now1 true symbol st).1 with hst2
    have hmem2 : symbol ∈ (reset_alerted_symbols_if_needed hours now2 st2).alerted := by
      rw [hnoclear, hst2]
      simp [send_alert_if_needed, hmem]
    simp [send_alert_if_needed, hmem2]

/-- Witness for `send_alert_dedup`: no reset interval, clean initial state —
the first sweep's successful alert for "BTC" fires the notifier, the second
sweep skips it. -/
theorem send_alert_dedup_witness :
    (send_alert_if_needed none 0 true "BTC" (initState .absent)).2 = true ∧
    (send_alert_if_needed none 300 true "BTC"
        (send_alert_if_needed none 0 true "BTC" (initState .absent)).1).2 = false :=
  (send_alert_dedup none 0 300 "BTC" (initState .absent)).2.2.2 true
    (by simp [reset_alerted_symbols_if_needed, initState, load_alert_cache])
    rfl

/-- `check_volume_spike` never reports a spike when the SMA is unavailable. -/
theorem check_volume_spike_sma_none (p : ℕ) (m : ℚ) (candles : List Candle)
    (cv : Option ℚ) (h : calculate_volume_sma p candles = none) :
    (check_volume_spike p m candles cv).is_spike = false := by
  rw [check_volume_spike.eq_def]
  by_cases hne : candles.isEmpty
  · simp [hne]
  · simp [hne, h]

/-- C10: a config whose SMA window exceeds 50 passes `validate_config`
unchanged, yet `check_symbol_volume` — which requests only 50 candles, skips
symbols returning fewer than 20, and gets no SMA whenever the candle count is
below the window — can then never produce a spike analysis: every symbol whose
response respects the requested count is skipped or classified non-spike. -/
theorem oversized_window_never_spikes (p : ℕ) (m min_krw : ℚ) (symbol : String)
    (candles? : Option (List Candle)) (hp : 50 < p)
    (hcount : ∀ cs, candles? = some cs → cs.length ≤ requested_candle_count) :
    validate_config 300 5 (p : ℤ) "5m" 10 10 (1 / 10) none 0 2 = true ∧
    requested_candle_count = 50 ∧
    check_symbol_volume p m min_krw symbol candles? = none := by
  refine ⟨?_, rfl, ?_⟩
  · simp only [validate_config, valid_intervals]
    norm_num
    omega
  · rcases candles? with _ | cs
    · rfl
    · rw [check_symbol_volume]
      by_cases hlen : cs.length < 20
      · simp [hlen]
      · have hsma : calculate_volume_sma p cs = none := by
          rw [calculate_volume_sma, if_pos]
          right
          have := hcount cs rfl
          rw [requested_candle_count] at this
          omega
        have hspike := check_volume_spike_sma_none p m cs none hsma
        have hanalyze : analyze_market p m cs symbol = none := by
          rw [analyze_market]
          by_cases hne : cs.isEmpty
          · simp [hne]
          · simp [hne, hspike]
        simp [hlen, hanalyze]

/-- Witness for `oversized_window_never_spikes`: window 51, a full 50-candle
response of volume-10 candles — validation passes and no analysis comes back. -/
theorem oversized_window_never_spikes_witness :
    validate_config 300 5 (51 : ℤ) "5m" 10 10 (1 / 10) none 0 2 = true ∧
    requested_candle_count = 50 ∧
    check_symbol_volume 51 5 0 "BTC"
      (some (List.replicate 50 ⟨0, 0, 0, 0, 0, 10⟩)) = none :=
  oversized_window_never_spikes 51 5 0 "BTC"
    (some (List.replicate 50 ⟨0, 0, 0, 0, 0, 10⟩)) (by norm_num)
    (fun cs hcs => by
      simp only [Option.some.injEq] at hcs
      subst hcs
      simp [requested_candle_count])

end BithumbBot
